import Mathlib

/-!
Verification development for the observability and liveness-monitoring
subsystem of the attendance web services (app1.py, app2.py).

The Python sources are shallowly embedded: metric registries become
explicit record states, counters and distributions are modelled as lists
of increment/observation events (so counts of events can be compared),
gauges as integer-valued maps from label values, and the Flask hooks
(before_request / after_request) and the decorator monitor_db_operation
become explicit state-passing functions.  Wall-clock durations are
irrelevant to the claims and are dropped from observations; sleep
durations in retry/sampler loops are tracked as natural numbers.
-/

namespace App1

/-- Label value actually stored for request.endpoint by prometheus_client,
which stringifies every label value with str(); Python str(None) = "None".
app1.py passes request.endpoint (a str or None) directly as the label. -/
def endpointLabel : Option String → String
  | some e => e
  | none => "None"

/-- One inbound request as seen by the instrumentation hooks in app1.py:
the resolved endpoint (None for a malformed route), the HTTP method, and
whether request.start_time was set (it is set by before_request; it is
absent when before_request never ran for this request). -/
structure Request1 where
  endpoint : Option String
  method : String
  hasStartTime : Bool
deriving DecidableEq, Repr

/-- Metric state touched by the request instrumentation of app1.py.
Counters and the latency Summary are kept as lists of labelled events,
newest first; the in-progress Gauge is an integer per endpoint label. -/
structure Metrics1 where
  requestInProgress : String → Int
  requestLatencyObs : List (String × String × String)
  requestCount : List (String × String × Nat × String)
  errorCount : List (String × String × String)

/-- Initial metric state of a fresh process: empty counters, zero gauges. -/
def metrics1Init : Metrics1 :=
  { requestInProgress := fun _ => 0
    requestLatencyObs := []
    requestCount := []
    errorCount := [] }

/-- Embedding of before_request (app1.py lines 171-175): record the start
time on the request, and if request.endpoint is truthy increment the
in-progress gauge for that endpoint. -/
def before_request (r : Request1) (m : Metrics1) : Request1 × Metrics1 :=
  let r := { r with hasStartTime := true }
  match r.endpoint with
  | some e =>
      (r, { m with requestInProgress :=
              fun l => if l = e then m.requestInProgress l + 1 else m.requestInProgress l })
  | none => (r, m)

/-- Embedding of after_request (app1.py lines 177-204): if the endpoint is
truthy decrement the in-progress gauge; if request.start_time exists record
a latency observation labelled (endpoint, method, "absensi"); always
increment REQUEST_COUNT labelled (endpoint, method, status_code, "absensi");
if the status code is at least 400 also increment ERROR_COUNT labelled
(endpoint, http_ status, "absensi"). -/
def after_request (r : Request1) (status : Nat) (m : Metrics1) : Metrics1 :=
  let m :=
    match r.endpoint with
    | some e =>
        { m with requestInProgress :=
            fun l => if l = e then m.requestInProgress l - 1 else m.requestInProgress l }
    | none => m
  let m :=
    if r.hasStartTime then
      { m with requestLatencyObs :=
          (endpointLabel r.endpoint, r.method, "absensi") :: m.requestLatencyObs }
    else m
  let m :=
    { m with requestCount :=
        (endpointLabel r.endpoint, r.method, status, "absensi") :: m.requestCount }
  if 400 ≤ status then
    { m with errorCount :=
        (endpointLabel r.endpoint, "http_" ++ toString status, "absensi") :: m.errorCount }
  else m

/-- Outcome of running the route handler for one request: a response with
a status code, or an uncaught exception. -/
inductive HandlerOutcome where
  | ok (status : Nat)
  | raises
deriving DecidableEq, Repr

/-- Flask dispatch of one request through the hooks of app1.py.
before_request always runs first.  If the handler returns a response,
after_request runs on it.  If the handler raises an exception that no
error handler catches, Flask behaviour depends on exception propagation:
with propagation off (production), Flask builds a 500 response inside
handle_exception via finalize_request, so after_request still runs; with
propagation on (debug or testing mode — app1.py starts the server with
app.run(debug=True)), the exception is re-raised to the WSGI server and
after_request is skipped.  The in-progress decrement therefore lives on a
path that is not taken for unhandled exceptions in debug mode. -/
def handleRequest (propagateExceptions : Bool) (r0 : Request1) (h : HandlerOutcome)
    (m : Metrics1) : Metrics1 :=
  let (r, m) := before_request r0 m
  match h with
  | .ok status => after_request r status m
  | .raises =>
      if propagateExceptions then m
      else after_request r 500 m

/-- A trace of bare after_request invocations (request, response status),
as used to compare counter growth across any execution trace. -/
def runAfterRequests : List (Request1 × Nat) → Metrics1 → Metrics1
  | [], m => m
  | (r, s) :: rest, m => runAfterRequests rest (after_request r s m)

end App1

namespace DbOp

/-- Metric state touched by the decorator monitor_db_operation of app1.py:
the per-(operation, table) latency Histogram as a list of labelled
observations, and ERROR_COUNT as a list of labelled increments. -/
structure MetricsDb where
  dbOpLatencyObs : List (String × String)
  errorCount : List (String × String × String)
deriving DecidableEq, Repr

/-- Empty database-operation metric state. -/
def metricsDbInit : MetricsDb := { dbOpLatencyObs := [], errorCount := [] }

/-- Embedding of monitor_db_operation (app1.py lines 207-226).  The wrapped
function is modelled as returning Except (raise = error).  On a normal
return the wrapper observes the elapsed time into DB_OPERATION_LATENCY
labelled (operation_name, table_name) and returns the result; on an
exception it increments ERROR_COUNT labelled with the calling endpoint and
the classification database_error, then re-raises the same exception.
The endpoint argument is the stringified request.endpoint at call time. -/
def monitor_db_operation {α ε β : Type} (operation_name table_name endpoint : String)
    (f : α → Except ε β) (a : α) (m : MetricsDb) : Except ε β × MetricsDb :=
  match f a with
  | .ok result =>
      (.ok result,
       { m with dbOpLatencyObs := (operation_name, table_name) :: m.dbOpLatencyObs })
  | .error e =>
      (.error e,
       { m with errorCount := (endpoint, "database_error", "absensi") :: m.errorCount })

end DbOp

namespace Conn

/-- Connection lifecycle signals emitted by the record-store engine and
consumed by the listeners of app1.py lines 112-119. -/
inductive ConnEvent where
  | connect
  | disconnect
deriving DecidableEq, Repr

/-- Embedding of receive_connect (app1.py lines 113-115): increment the
DB_CONNECTION_COUNT gauge. -/
def receive_connect (g : Int) : Int := g + 1

/-- Embedding of receive_disconnect (app1.py lines 117-119): decrement the
DB_CONNECTION_COUNT gauge, with no clamping and no warning. -/
def receive_disconnect (g : Int) : Int := g - 1

/-- Run a sequence of lifecycle events through the two listeners, starting
from a given gauge value. -/
def runConnEvents : List ConnEvent → Int → Int
  | [], g => g
  | .connect :: rest, g => runConnEvents rest (receive_connect g)
  | .disconnect :: rest, g => runConnEvents rest (receive_disconnect g)

end Conn

namespace Sampler

/-- One successful reading of the OS metrics source, as gathered inside the
try block of update_system_metrics (app1.py lines 122-148): per-core CPU
percentages, five memory figures and four disk figures.  The numeric values
are abstracted as integers; their magnitudes play no role in the claims. -/
structure Sample where
  cpu : List Int
  memTotal : Int
  memAvailable : Int
  memUsed : Int
  memCached : Int
  memPercent : Int
  diskTotal : Int
  diskUsed : Int
  diskFree : Int
  diskPercent : Int
deriving DecidableEq, Repr

/-- Gauge state published by the sampler: the per-core CPU gauge keyed by
core index, and the memory and disk gauges (none before the first set). -/
structure MetricsSys where
  cpuGauge : Nat → Option Int
  memory : Option (Int × Int × Int × Int × Int)
  disk : Option (Int × Int × Int × Int)

/-- Initial system-gauge state of a fresh process. -/
def metricsSysInit : MetricsSys :=
  { cpuGauge := fun _ => none, memory := none, disk := none }

/-- Set the per-core CPU gauges from a list of percentages, one gauge per
index, as the enumerate loop of update_system_metrics does. -/
def setCpu (values : List Int) (g : Nat → Option Int) : Nat → Option Int :=
  fun i => if i < values.length then values.get? i else g i

/-- One iteration of the while-True body of update_system_metrics
(app1.py lines 122-148).  The reading is none when any of the psutil calls
raises.  On success all gauges are set and the loop sleeps 5 time units;
on failure the error is logged, no gauge changes, and the loop sleeps
1 time unit.  Either way the loop continues with the next iteration.
The returned number is the sleep taken by this cycle. -/
def samplerCycle (reading : Option Sample) (m : MetricsSys) : MetricsSys × Nat :=
  match reading with
  | some s =>
      ({ cpuGauge := setCpu s.cpu m.cpuGauge
         memory := some (s.memTotal, s.memAvailable, s.memUsed, s.memCached, s.memPercent)
         disk := some (s.diskTotal, s.diskUsed, s.diskFree, s.diskPercent) }, 5)
  | none => (m, 1)

/-- Run the sampler loop over a finite prefix of cycle readings, collecting
the metric state and the sleep schedule.  The loop of the source has no
exit path — every exception is caught inside the body — so it processes
every cycle offered to it; shutdown is modelled as the end of input. -/
def runSampler : List (Option Sample) → MetricsSys → MetricsSys × List Nat
  | [], m => (m, [])
  | r :: rest, m =>
      let (m1, d) := samplerCycle r m
      let (mf, ds) := runSampler rest m1
      (mf, d :: ds)

end Sampler

namespace App2

/-- Result of wait_for_database (app2.py lines 105-116): whether it
returned True, how many connection attempts it made, and the total sleep
time accumulated across the fixed-delay sleeps it took. -/
structure ProbeResult where
  success : Bool
  attempts : Nat
  totalSleep : Nat
deriving DecidableEq, Repr

/-- Loop of wait_for_database: for attempt in range(1, max_retries + 1),
try one connection; on success return True immediately; on failure log and
sleep delay time units, then move to the next attempt.  The parameter ok
tells whether the connection attempt with a given 1-based number succeeds.
The fuel argument counts the remaining iterations of the for range. -/
def waitLoop (ok : Nat → Bool) (delay : Nat) :
    Nat → Nat → Nat → ProbeResult
  | 0, attemptsMade, sleepAcc => ⟨false, attemptsMade, sleepAcc⟩
  | remaining + 1, attemptsMade, sleepAcc =>
      if ok (attemptsMade + 1) then ⟨true, attemptsMade + 1, sleepAcc⟩
      else waitLoop ok delay remaining (attemptsMade + 1) (sleepAcc + delay)

/-- Embedding of wait_for_database (app2.py lines 105-116) with its default
arguments max_retries = 5 and delay = 5 made explicit. -/
def wait_for_database (ok : Nat → Bool) (max_retries delay : Nat) : ProbeResult :=
  waitLoop ok delay max_retries 0 0

/-- Outcome of the process entry point: either the app starts serving or
the process exits with the given status code. -/
inductive MainOutcome where
  | served
  | exited (code : Nat)
deriving DecidableEq, Repr

/-- Embedding of the main block of app2.py (lines 229-235): if
wait_for_database() returns True the tables are created and app.run serves;
otherwise a critical line is logged and the process calls exit(1). -/
def app2Main (ok : Nat → Bool) (max_retries delay : Nat) : MainOutcome :=
  if (wait_for_database ok max_retries delay).success then .served else .exited 1

end App2

namespace Conn

/-- Number of connect events in a list of lifecycle events. -/
def countConnects : List ConnEvent → Nat
  | [] => 0
  | .connect :: rest => countConnects rest + 1
  | .disconnect :: rest => countConnects rest

/-- Number of disconnect events in a list of lifecycle events. -/
def countDisconnects : List ConnEvent → Nat
  | [] => 0
  | .connect :: rest => countDisconnects rest
  | .disconnect :: rest => countDisconnects rest + 1

end Conn

/-! ## Shared helper lemmas -/

/-- Per-call counting behaviour of after_request: the total-requests counter
grows by one unconditionally, the error counter grows by one exactly when
the status is at least 400, and a latency observation is added exactly when
request.start_time exists. -/
theorem after_request_event_counts (r : App1.Request1) (s : Nat) (m : App1.Metrics1) :
    (App1.after_request r s m).requestCount.length = m.requestCount.length + 1 ∧
    (App1.after_request r s m).errorCount.length =
      m.errorCount.length + (if 400 ≤ s then 1 else 0) ∧
    (App1.after_request r s m).requestLatencyObs.length =
      m.requestLatencyObs.length + (if r.hasStartTime then 1 else 0) := by
  obtain ⟨ep, method, hs⟩ := r
  cases ep <;> cases hs <;> by_cases h : 400 ≤ s <;>
    simp [App1.after_request, h]

/-- Counting behaviour of a trace of after_request calls, starting from an
arbitrary metric state. -/
theorem runAfterRequests_event_counts (calls : List (App1.Request1 × Nat))
    (m : App1.Metrics1) :
    (App1.runAfterRequests calls m).requestCount.length =
      m.requestCount.length + calls.length ∧
    (App1.runAfterRequests calls m).errorCount.length =
      m.errorCount.length + (calls.filter (fun c => decide (400 ≤ c.2))).length ∧
    (App1.runAfterRequests calls m).requestLatencyObs.length =
      m.requestLatencyObs.length + (calls.filter (fun c => c.1.hasStartTime)).length := by
  induction calls generalizing m with
  | nil => simp [App1.runAfterRequests]
  | cons c rest ih =>
      obtain ⟨r, s⟩ := c
      obtain ⟨h1, h2, h3⟩ := after_request_event_counts r s m
      obtain ⟨g1, g2, g3⟩ := ih (App1.after_request r s m)
      refine ⟨?_, ?_, ?_⟩
      · simp only [App1.runAfterRequests, List.length_cons, g1, h1]
        omega
      · simp only [App1.runAfterRequests, List.filter_cons, g2, h2]
        by_cases h : 400 ≤ s <;> simp [h] <;> omega
      · simp only [App1.runAfterRequests, List.filter_cons, g3, h3]
        by_cases hst : r.hasStartTime <;> simp [hst] <;> omega

/-- The loop of wait_for_database under a permanently failing store: every
iteration fails, sleeps delay, and moves on, so the loop runs through all
remaining iterations, adding that many attempts and that many delays. -/
theorem waitLoop_all_fail (ok : Nat → Bool) (delay : Nat) (h : ∀ n, ok n = false) :
    ∀ remaining attemptsMade sleepAcc,
      App2.waitLoop ok delay remaining attemptsMade sleepAcc =
        ⟨false, attemptsMade + remaining, sleepAcc + remaining * delay⟩ := by
  intro remaining
  induction remaining with
  | zero => intro a s; simp [App2.waitLoop]
  | succ k ih =>
      intro a s
      rw [App2.waitLoop, h, ih]
      simp only [Bool.false_eq_true, if_false, App2.ProbeResult.mk.injEq, Nat.succ_mul,
        true_and]
      exact ⟨by ring, by ring⟩

/-! ## Claims -/

/-- C1: the claim states that the in-progress gauge is decremented on every
exit path, including unhandled handler exceptions, so it returns to its
pre-request value after every request.  The code uses a plain
before_request increment and after_request decrement; Flask skips
after_request when an unhandled exception propagates, and app1.py runs with
app.run(debug=True), which turns propagation on.  Evaluating the embedding
at such a request: the gauge ends one above its pre-request value. -/
theorem c1_in_progress_gauge_leaks_on_unhandled_exception :
    (App1.handleRequest true ⟨some "create_absensi", "POST", false⟩
        App1.HandlerOutcome.raises App1.metrics1Init).requestInProgress "create_absensi" = 1 ∧
    App1.metrics1Init.requestInProgress "create_absensi" = 0 := by
  constructor <;> decide

/-- C2 counterexample: the claim states a latency observation is made
regardless of whether the wrapped function returns or raises.  At a
concrete raising call, no observation is added to the per-(operation,
table) distribution. -/
theorem c2_counterexample_no_observation_on_raise :
    ¬ ((DbOp.monitor_db_operation "create" "absensi" "create_absensi"
          (fun _ : Unit => (Except.error "db down" : Except String Unit)) ()
          DbOp.metricsDbInit).2.dbOpLatencyObs.length
        = DbOp.metricsDbInit.dbOpLatencyObs.length + 1) := by
  decide

/-- C2 (amended): the operation timer records the elapsed time into the
per-(operation, table) latency distribution only when the wrapped function
returns normally; when it raises, no latency observation is made (only the
error counter changes). -/
theorem c2_latency_observed_only_on_success {α ε β : Type} (op tbl ep : String)
    (f : α → Except ε β) (a : α) (m : DbOp.MetricsDb) :
    (DbOp.monitor_db_operation op tbl ep f a m).2.dbOpLatencyObs =
      match f a with
      | .ok _ => (op, tbl) :: m.dbOpLatencyObs
      | .error _ => m.dbOpLatencyObs := by
  cases h : f a <;> simp [DbOp.monitor_db_operation, h]

/-- C3 counterexample: the claim states the connection gauge clamps at zero
on excess closes, naming 2 opens followed by 3 closes.  Running exactly
that event sequence from gauge 0 yields a negative value. -/
theorem c3_counterexample_gauge_goes_negative :
    ¬ (0 ≤ Conn.runConnEvents
          [.connect, .connect, .disconnect, .disconnect, .disconnect] 0) := by
  decide

/-- C3 (amended): the connection gauge, mutated only by the open and close
listeners, equals its start value plus the number of opens minus the number
of closes; with more closes than opens it goes negative — there is no
clamping at zero and no warning. -/
theorem c3_gauge_is_opens_minus_closes (es : List Conn.ConnEvent) (g : Int) :
    Conn.runConnEvents es g =
      g + (Conn.countConnects es : Int) - (Conn.countDisconnects es : Int) := by
  induction es generalizing g with
  | nil => simp [Conn.runConnEvents, Conn.countConnects, Conn.countDisconnects]
  | cons e rest ih =>
      cases e <;>
        simp [Conn.runConnEvents, Conn.receive_connect, Conn.receive_disconnect,
          Conn.countConnects, Conn.countDisconnects, ih] <;>
        ring

/-- C4 counterexample: the claim states the total sleep is strictly less
than 2 × delay when the first 2 attempts fail and the third succeeds.
With the default delay 5 the probe sleeps exactly 10 = 2 × 5, which is not
strictly less than 2 × 5. -/
theorem c4_counterexample_sleep_not_under_two_delays :
    ¬ ((App2.wait_for_database (fun n => decide (3 ≤ n)) 5 5).totalSleep < 2 * 5) := by
  decide

/-- C4 (amended): if the store fails the first 2 connection attempts and
succeeds on the third, wait_for_database reaches the success outcome after
exactly 3 attempts, and the total sleep taken is exactly 2 × delay (one
fixed delay after each of the two failed attempts), not strictly less. -/
theorem c4_success_on_third_attempt (ok : Nat → Bool) (delay : Nat)
    (h1 : ok 1 = false) (h2 : ok 2 = false) (h3 : ok 3 = true) :
    App2.wait_for_database ok 5 delay = ⟨true, 3, 2 * delay⟩ := by
  show App2.waitLoop ok delay 5 0 0 = ⟨true, 3, 2 * delay⟩
  rw [App2.waitLoop]
  simp only [Nat.zero_add, h1, if_false, Bool.false_eq_true]
  rw [App2.waitLoop]
  simp only [h2, if_false, Bool.false_eq_true]
  rw [App2.waitLoop]
  simp only [h3, if_true]
  simp [App2.ProbeResult.mk.injEq]
  omega

/-- C4 witness: the amended statement at a concrete store that fails the
first 2 attempts then succeeds, with the default delay 5. -/
theorem c4_witness :
    App2.wait_for_database (fun n => decide (3 ≤ n)) 5 5 = ⟨true, 3, 2 * 5⟩ :=
  c4_success_on_third_attempt (fun n => decide (3 ≤ n)) 5 rfl rfl rfl

/-- C5: if every connection attempt fails, wait_for_database makes exactly
max_retries attempts, never more, and reports failure; the main block of
app2.py then treats this as fatal and exits with status 1 instead of
serving. -/
theorem c5_permanent_failure_exhausts_retries_then_exits (ok : Nat → Bool)
    (max_retries delay : Nat) (h : ∀ n, ok n = false) :
    (App2.wait_for_database ok max_retries delay).success = false ∧
    (App2.wait_for_database ok max_retries delay).attempts = max_retries ∧
    App2.app2Main ok max_retries delay = App2.MainOutcome.exited 1 := by
  have hw := waitLoop_all_fail ok delay h max_retries 0 0
  refine ⟨?_, ?_, ?_⟩
  · rw [App2.wait_for_database, hw]
  · rw [App2.wait_for_database, hw]
    simp
  · rw [App2.app2Main, App2.wait_for_database, hw]
    simp

/-- C5 witness: the permanently failing store with the default parameters
max_retries = 5 and delay = 5. -/
theorem c5_witness :
    (App2.wait_for_database (fun _ => false) 5 5).success = false ∧
    (App2.wait_for_database (fun _ => false) 5 5).attempts = 5 ∧
    App2.app2Main (fun _ => false) 5 5 = App2.MainOutcome.exited 1 :=
  c5_permanent_failure_exhausts_retries_then_exits (fun _ => false) 5 5 (fun _ => rfl)

/-- C6 counterexample: the claim states that a request with an unresolved
endpoint is instrumented with the sentinel label value "unknown".  For such
a request, the recorded total-requests increment carries the label "None"
(Python str of None), not "unknown". -/
theorem c6_counterexample_label_is_not_unknown :
    ¬ ((App1.after_request ⟨none, "GET", true⟩ 404 App1.metrics1Init).requestCount
        = [("unknown", "GET", 404, "absensi")]) := by
  decide

/-- C6 (amended): for a request whose endpoint cannot be resolved, the
instrumentation still records the latency observation and the counter
increment rather than failing or omitting them, but the endpoint label it
uses is the stringified Python None ("None"), not the sentinel "unknown". -/
theorem c6_unresolved_endpoint_still_recorded_with_none_label
    (method : String) (status : Nat) (m : App1.Metrics1) :
    (App1.after_request ⟨none, method, true⟩ status m).requestCount =
      ("None", method, status, "absensi") :: m.requestCount ∧
    (App1.after_request ⟨none, method, true⟩ status m).requestLatencyObs =
      ("None", method, "absensi") :: m.requestLatencyObs := by
  by_cases h : 400 ≤ status <;>
    simp [App1.after_request, App1.endpointLabel, h]

/-- C7: the operation timer is transparent to control flow: the wrapped
call returns or raises exactly what the unwrapped function does, and on a
raise the error counter gains one increment labelled with the calling
endpoint and the classification database_error before the exception is
re-raised unchanged. -/
theorem c7_timer_transparent_and_counts_errors {α ε β : Type}
    (op tbl ep : String) (f : α → Except ε β) (a : α) (m : DbOp.MetricsDb) :
    (DbOp.monitor_db_operation op tbl ep f a m).1 = f a ∧
    (DbOp.monitor_db_operation op tbl ep f a m).2.errorCount =
      match f a with
      | .ok _ => m.errorCount
      | .error _ => (ep, "database_error", "absensi") :: m.errorCount := by
  cases h : f a <;> simp [DbOp.monitor_db_operation, h]

/-- C8: the sampler loop processes every cycle it is offered — a failed
sample never terminates it — and its sleep schedule is 1 time unit for
exactly the failed cycles and the normal 5 time units for the others, so a
failure shortens only its own cycle. -/
theorem c8_sampler_survives_failed_cycles (rs : List (Option Sampler.Sample))
    (m : Sampler.MetricsSys) :
    (Sampler.runSampler rs m).2 =
      rs.map (fun r => match r with | some _ => 5 | none => 1) := by
  induction rs generalizing m with
  | nil => rfl
  | cons r rest ih =>
      cases r <;> simp [Sampler.runSampler, Sampler.samplerCycle, ih]

/-- C9: under a permanently failing store, the fixed-delay sleep is taken
after every failed attempt, including the last one, so wait_for_database
sleeps max_retries × delay time units in total before reporting failure. -/
theorem c9_sleep_taken_after_final_attempt (ok : Nat → Bool)
    (max_retries delay : Nat) (h : ∀ n, ok n = false) :
    (App2.wait_for_database ok max_retries delay).totalSleep =
      max_retries * delay := by
  rw [App2.wait_for_database, waitLoop_all_fail ok delay h max_retries 0 0]
  simp

/-- C9 witness: the permanently failing store with max_retries = 5 and
delay = 7 sleeps 35 time units. -/
theorem c9_witness :
    (App2.wait_for_database (fun _ => false) 5 7).totalSleep = 5 * 7 :=
  c9_sleep_taken_after_final_attempt (fun _ => false) 5 7 (fun _ => rfl)

/-- C10: across every trace of after_request invocations from a fresh
metric state, the total-requests counter is incremented once per response
unconditionally, the error counter once per response with status at least
400 unconditionally, while a latency observation is recorded only for the
responses whose request carries a start timestamp; consequently the
total-requests count is at least the number of latency observations. -/
theorem c10_request_count_dominates_latency_observations
    (calls : List (App1.Request1 × Nat)) :
    (App1.runAfterRequests calls App1.metrics1Init).requestCount.length =
      calls.length ∧
    (App1.runAfterRequests calls App1.metrics1Init).errorCount.length =
      (calls.filter (fun c => decide (400 ≤ c.2))).length ∧
    (App1.runAfterRequests calls App1.metrics1Init).requestLatencyObs.length =
      (calls.filter (fun c => c.1.hasStartTime)).length ∧
    (App1.runAfterRequests calls App1.metrics1Init).requestLatencyObs.length ≤
      (App1.runAfterRequests calls App1.metrics1Init).requestCount.length := by
  obtain ⟨h1, h2, h3⟩ := runAfterRequests_event_counts calls App1.metrics1Init
  refine ⟨?_, ?_, ?_, ?_⟩
  · rw [h1]
    simp [App1.metrics1Init]
  · rw [h2]
    simp [App1.metrics1Init]
  · rw [h3]
    simp [App1.metrics1Init]
  · rw [h1, h3]
    simp only [App1.metrics1Init, List.length_nil, Nat.zero_add]
    exact List.length_filter_le _ _
